import Mathlib

/-!
Shallow embedding of the `github.createIssueComment` component from
`pkg/integrations/github/create_issue_comment.go`, together with the
pieces of the surrounding component runtime it depends on.

The component itself (`Setup`, `Execute`, `Configuration`, `OutputChannels`)
is translated directly from the Go source.  The helper types and the
resource-resolution helper `ensureRepoInMetadata` live elsewhere in the
repository and are modelled from the specification and the package tests.
-/

namespace Superplane

/-- Modelled from the spec: an Integration Resource (a GitHub repository)
exposed by the Integration Context — stable numeric ID, human-chosen name,
canonical URL.  The `Repository` struct of the github package is not in the
visible sources; its shape is fixed by the tests
(`Repository{ID: 123456, Name: "hello", URL: ...}`). -/
structure Repository where
  ID : Nat
  Name : String
  URL : String
deriving DecidableEq, Repr

/-- Modelled from the spec: the github integration `Metadata` stored on the
Integration Context — owning account identifier, installation identifier,
GitHub App identifier and the discovered repository list.  The struct is not
in the visible sources; the tests build it as
`Metadata{Repositories: []Repository{...}}`. -/
structure Metadata where
  Owner : String
  AppID : Nat
  InstallationID : Nat
  Repositories : List Repository
deriving DecidableEq, Repr

/-- Modelled from the spec: the per-node `NodeMetadata` written by `Setup` —
it holds the fully resolved repository object.  The struct is not in the
visible sources; the tests compare the store against
`NodeMetadata{Repository: &helloRepo}`. -/
structure NodeMetadata where
  Repository : Superplane.Repository
deriving DecidableEq, Repr

/-- Modelled from the spec: `core.OutputChannel`, a named conduit for
emitted values. -/
structure OutputChannel where
  Name : String
deriving DecidableEq, Repr

/-- Modelled from the spec: `core.DefaultOutputChannel`, the single default
channel of fixed-shape components. -/
def DefaultOutputChannel : OutputChannel := ⟨"default"⟩

/-- Modelled from the spec: the field-type enumeration of the
`configuration` package (short text, long text, integration-resource
reference). -/
inductive FieldType where
  | string
  | text
  | integrationResource
deriving DecidableEq, Repr

/-- Modelled from the spec: `configuration.ResourceTypeOptions`. -/
structure ResourceTypeOptions where
  type : String
  UseNameAsValue : Bool
deriving DecidableEq, Repr

/-- Modelled from the spec: `configuration.TypeOptions`. -/
structure TypeOptions where
  Resource : Option ResourceTypeOptions
deriving DecidableEq, Repr

/-- Modelled from the spec: `configuration.Field`, one user-facing input of
the declared configuration schema. -/
structure Field where
  Name : String
  Label : String
  type : FieldType
  Required : Bool
  Placeholder : String := ""
  Description : String := ""
  typeOptions : Option TypeOptions := none
deriving DecidableEq, Repr

/-- The raw string-keyed configuration map supplied by the host, modelled as
an association list (first binding wins, as in a map each key occurs at most
once). -/
abbrev RawConfig := List (String × String)

/-- `CreateIssueCommentConfiguration` from the Go source: the typed
projection of the raw configuration map. -/
structure CreateIssueCommentConfiguration where
  Repository : String
  IssueNumber : String
  Body : String
deriving DecidableEq, Repr

/-- `mapstructure.Decode` of the raw map into
`CreateIssueCommentConfiguration`: each string field takes the value bound
to its key, and an absent key leaves the field at its zero value `""`. -/
def decodeConfig (cfg : RawConfig) : CreateIssueCommentConfiguration :=
  { Repository := (cfg.lookup "repository").getD ""
    IssueNumber := (cfg.lookup "issueNumber").getD ""
    Body := (cfg.lookup "body").getD "" }

/-- Modelled from the spec: the helper `ensureRepoInMetadata` called by
`Setup`, which is not in the visible sources.  Per §4.2/§4.3 and the tests:
an empty repository value fails with "repository is required"; otherwise the
repository list of the Integration Context is searched for a resource with
that name — no match fails with
"repository X is not accessible to app installation", and on a match the
resolved resource object is returned to be stored wholesale into the node
metadata.  Per the design notes, the current lookup returns the FIRST match
(`List.find?`). -/
def ensureRepoInMetadata (integration : Metadata) (cfg : RawConfig) :
    Except String NodeMetadata :=
  let repoName := (cfg.lookup "repository").getD ""
  if repoName = "" then
    .error "repository is required"
  else
    match integration.Repositories.find? (fun r => r.Name == repoName) with
    | none => .error ("repository " ++ repoName ++ " is not accessible to app installation")
    | some repo => .ok ⟨repo⟩

/-- The `core.SetupContext` as used by this component: the Integration
Context metadata, the current node metadata store value, and the raw
configuration. -/
structure SetupContext where
  Integration : Metadata
  MetadataStore : Option NodeMetadata
  Configuration : RawConfig
deriving DecidableEq, Repr

deriving instance DecidableEq for Except

/-- Result of a `Setup` call: the returned error (if any) and the node
metadata store state after the call. -/
structure SetupResult where
  result : Except String Unit
  store : Option NodeMetadata
deriving DecidableEq, Repr

/-- `CreateIssueComment.Setup` from the Go source: first validate repository
access via `ensureRepoInMetadata` (which writes the resolved repository into
the node metadata store on success), then decode the configuration and check
the remaining required fields in order. -/
def Setup (ctx : SetupContext) : SetupResult :=
  match ensureRepoInMetadata ctx.Integration ctx.Configuration with
  | .error e => ⟨.error e, ctx.MetadataStore⟩
  | .ok nm =>
    let config := decodeConfig ctx.Configuration
    if config.IssueNumber = "" then ⟨.error "issue number is required", some nm⟩
    else if config.Body = "" then ⟨.error "body is required", some nm⟩
    else ⟨.ok (), some nm⟩

/-- `CreateIssueComment.Configuration` from the Go source: the declared
schema of three fields. -/
def Configuration : List Field :=
  [ { Name := "repository"
      Label := "Repository"
      type := .integrationResource
      Required := true
      typeOptions := some { Resource := some { type := "repository", UseNameAsValue := true } } },
    { Name := "issueNumber"
      Label := "Issue Number"
      type := .string
      Required := true
      Placeholder := "e.g., 42"
      Description := "The issue or PR number to comment on" },
    { Name := "body"
      Label := "Body"
      type := .text
      Required := true
      Placeholder := "Enter your comment (Markdown supported)"
      Description := "The comment text - supports Markdown formatting" } ]

/-- `CreateIssueComment.OutputChannels` from the Go source: the argument has
type `any` and is ignored; the result is the one-element default channel
list. -/
def OutputChannels {α : Type} (configuration : α) : List OutputChannel :=
  [DefaultOutputChannel]

/-- Digits-to-number accumulator used by the `strconv.Atoi` model. -/
def digitsToNat (l : List Char) : Nat :=
  l.foldl (fun acc c => acc * 10 + (c.toNat - 48)) 0

/-- Syntactic part of Go `strconv.Atoi`: an optional leading sign followed
by at least one decimal digit and nothing else; `none` on any other
shape. -/
def parseGoIntSyntax (s : String) : Option Int :=
  match s.toList with
  | [] => none
  | c :: rest =>
    let signAndDigits : Int × List Char :=
      if c = '+' then (1, rest)
      else if c = '-' then (-1, rest)
      else (1, c :: rest)
    if signAndDigits.2.isEmpty then none
    else if signAndDigits.2.all Char.isDigit then
      some (signAndDigits.1 * digitsToNat signAndDigits.2)
    else none

/-- Smallest value of Go `int` (64-bit). -/
def int64Min : Int := -9223372036854775808

/-- Largest value of Go `int` (64-bit). -/
def int64Max : Int := 9223372036854775807

/-- Go `strconv.Atoi`: parse an optionally signed decimal string into a
64-bit `int`, failing with `invalid syntax` on a malformed string and with
`value out of range` when the value does not fit. -/
def goAtoi (s : String) : Except String Int :=
  match parseGoIntSyntax s with
  | none => .error ("strconv.Atoi: parsing \"" ++ s ++ "\": invalid syntax")
  | some v =>
    if v < int64Min ∨ int64Max < v then
      .error ("strconv.Atoi: parsing \"" ++ s ++ "\": value out of range")
    else .ok v

/-- The provider-native comment object returned by the GitHub
`Issues.CreateComment` call (opaque at this boundary; identified by its
server-side id and body). -/
structure GitHubComment where
  ID : Nat
  Body : String
deriving DecidableEq, Repr

/-- One `Emit(channelName, eventType, payloads)` call recorded during an
execution. -/
structure EmitCall where
  channel : String
  eventType : String
  payload : List GitHubComment
deriving DecidableEq, Repr

/-- The `core.ExecutionContext` as used by this component, with the two
external collaborators of `Execute` (`NewClient` and
`client.Issues.CreateComment`) represented by their outcomes: whether the
GitHub client initializes, and what the single CreateComment call would
return. -/
structure ExecutionContext where
  Configuration : RawConfig
  IntegrationMetadata : Metadata
  NewClientOk : Bool
  CreateCommentOutcome : Except String GitHubComment
deriving DecidableEq, Repr

/-- Result of an `Execute` call: the returned error (if any), how many
external CreateComment calls were made, and the `Emit` calls that
occurred. -/
structure ExecResult where
  result : Except String Unit
  externalCalls : Nat
  emits : List EmitCall
deriving DecidableEq, Repr

/-- `CreateIssueComment.Execute` from the Go source: decode the
configuration, parse the issue number, initialize the GitHub client, make
the CreateComment call, and on success emit the created comment as a
one-element payload on the default channel with event type
`github.issueComment`.  Every error path returns the wrapped error with no
emission. -/
def Execute (ctx : ExecutionContext) : ExecResult :=
  let config := decodeConfig ctx.Configuration
  match goAtoi config.IssueNumber with
  | .error e => ⟨.error ("issue number is not a valid number: " ++ e), 0, []⟩
  | .ok _issueNumber =>
    if ctx.NewClientOk then
      match ctx.CreateCommentOutcome with
      | .error e => ⟨.error ("failed to create issue comment: " ++ e), 1, []⟩
      | .ok comment =>
        ⟨.ok (), 1, [⟨DefaultOutputChannel.Name, "github.issueComment", [comment]⟩]⟩
    else
      ⟨.error "failed to initialize GitHub client", 0, []⟩

end Superplane

namespace Superplane

/-! ## Concrete fixtures (mirroring the package tests) -/

/-- The repository fixture of the package tests. -/
def helloRepo : Repository := ⟨123456, "hello", "https://github.com/testhq/hello"⟩

/-- An Integration Context metadata exposing only `helloRepo`. -/
def helloIntegration : Metadata := ⟨"testhq", 1, 2, [helloRepo]⟩

/-- A raw configuration that passes every `Setup` check. -/
def validCfg : RawConfig :=
  [("repository", "hello"), ("issueNumber", "42"), ("body", "Test comment")]

/-- A setup context with the valid configuration and an empty store. -/
def validSetupCtx : SetupContext := ⟨helloIntegration, none, validCfg⟩

/-! ## Helper lemmas about `Setup` and `Execute` -/

/-- When the repository resolves and the remaining required fields are
non-empty, `Setup` succeeds and stores exactly the resolved repository. -/
theorem setup_valid_eq (ctx : SetupContext) (repo : Repository)
    (hrepo : (decodeConfig ctx.Configuration).Repository ≠ "")
    (hfind : ctx.Integration.Repositories.find?
        (fun r => r.Name == (decodeConfig ctx.Configuration).Repository) = some repo)
    (hissue : (decodeConfig ctx.Configuration).IssueNumber ≠ "")
    (hbody : (decodeConfig ctx.Configuration).Body ≠ "") :
    Setup ctx = ⟨.ok (), some ⟨repo⟩⟩ := by
  simp only [decodeConfig] at hrepo hfind hissue hbody
  simp [Setup, ensureRepoInMetadata, decodeConfig, hrepo, hfind, hissue, hbody]

/-- When the repository value is empty, `Setup` fails immediately and the
store is untouched. -/
theorem setup_repo_missing_eq (ctx : SetupContext)
    (hrepo : (decodeConfig ctx.Configuration).Repository = "") :
    Setup ctx = ⟨.error "repository is required", ctx.MetadataStore⟩ := by
  simp only [decodeConfig] at hrepo
  simp [Setup, ensureRepoInMetadata, hrepo]

/-- When the repository value is non-empty but matches no known resource,
`Setup` fails with the not-accessible error and the store is untouched. -/
theorem setup_repo_unmatched_eq (ctx : SetupContext)
    (hrepo : (decodeConfig ctx.Configuration).Repository ≠ "")
    (hfind : ctx.Integration.Repositories.find?
        (fun r => r.Name == (decodeConfig ctx.Configuration).Repository) = none) :
    Setup ctx = ⟨.error ("repository " ++ (decodeConfig ctx.Configuration).Repository ++
        " is not accessible to app installation"), ctx.MetadataStore⟩ := by
  simp only [decodeConfig] at hrepo hfind
  simp [Setup, ensureRepoInMetadata, decodeConfig, hrepo, hfind]

/-- When the repository resolves but the issue number is empty, `Setup`
fails with the issue-number error (the repository is already stored). -/
theorem setup_issue_missing_eq (ctx : SetupContext) (repo : Repository)
    (hrepo : (decodeConfig ctx.Configuration).Repository ≠ "")
    (hfind : ctx.Integration.Repositories.find?
        (fun r => r.Name == (decodeConfig ctx.Configuration).Repository) = some repo)
    (hissue : (decodeConfig ctx.Configuration).IssueNumber = "") :
    Setup ctx = ⟨.error "issue number is required", some ⟨repo⟩⟩ := by
  simp only [decodeConfig] at hrepo hfind hissue
  simp [Setup, ensureRepoInMetadata, decodeConfig, hrepo, hfind, hissue]

/-- When the repository resolves and the issue number is non-empty but the
body is empty, `Setup` fails with the body error. -/
theorem setup_body_missing_eq (ctx : SetupContext) (repo : Repository)
    (hrepo : (decodeConfig ctx.Configuration).Repository ≠ "")
    (hfind : ctx.Integration.Repositories.find?
        (fun r => r.Name == (decodeConfig ctx.Configuration).Repository) = some repo)
    (hissue : (decodeConfig ctx.Configuration).IssueNumber ≠ "")
    (hbody : (decodeConfig ctx.Configuration).Body = "") :
    Setup ctx = ⟨.error "body is required", some ⟨repo⟩⟩ := by
  simp only [decodeConfig] at hrepo hfind hissue hbody
  simp [Setup, ensureRepoInMetadata, decodeConfig, hrepo, hfind, hissue, hbody]

/-- A syntactically invalid issue number makes `goAtoi` fail with the Go
invalid-syntax message. -/
theorem goAtoi_syntax_error (s : String) (h : parseGoIntSyntax s = none) :
    goAtoi s = .error ("strconv.Atoi: parsing \"" ++ s ++ "\": invalid syntax") := by
  simp [goAtoi, h]

/-- `Execute` on a parseable issue number, working client and successful
external call: one call, one emission. -/
theorem execute_ok_eq (ctx : ExecutionContext) (n : Int) (comment : GitHubComment)
    (hnum : goAtoi (decodeConfig ctx.Configuration).IssueNumber = .ok n)
    (hclient : ctx.NewClientOk = true)
    (hout : ctx.CreateCommentOutcome = .ok comment) :
    Execute ctx = ⟨.ok (), 1,
      [⟨DefaultOutputChannel.Name, "github.issueComment", [comment]⟩]⟩ := by
  simp [Execute, hnum, hclient, hout]

/-- `Execute` on a parseable issue number, working client and failing
external call: one call, no emission, wrapped error. -/
theorem execute_call_failed_eq (ctx : ExecutionContext) (n : Int) (e : String)
    (hnum : goAtoi (decodeConfig ctx.Configuration).IssueNumber = .ok n)
    (hclient : ctx.NewClientOk = true)
    (hout : ctx.CreateCommentOutcome = .error e) :
    Execute ctx = ⟨.error ("failed to create issue comment: " ++ e), 1, []⟩ := by
  simp [Execute, hnum, hclient, hout]

/-- `Execute` on an unparseable issue number: no call, no emission, wrapped
error. -/
theorem execute_badnum_eq (ctx : ExecutionContext) (e : String)
    (hnum : goAtoi (decodeConfig ctx.Configuration).IssueNumber = .error e) :
    Execute ctx = ⟨.error ("issue number is not a valid number: " ++ e), 0, []⟩ := by
  simp [Execute, hnum]

/-- Prepending a binding of an absent key to the empty string does not
change any looked-up-with-default value. -/
theorem lookup_getD_cons_empty (cfg : RawConfig) (k : String)
    (habs : cfg.lookup k = none) (key : String) :
    (((k, "") :: cfg).lookup key).getD "" = (cfg.lookup key).getD "" := by
  by_cases h : k = key
  · subst h
    simp [List.lookup, habs]
  · have hb : (key == k) = false := by
      rw [beq_eq_false_iff_ne]
      exact fun hh => h hh.symm
    simp [List.lookup, hb]

/-- Prepending a binding of an absent key to the empty string does not
change the decoded configuration. -/
theorem decodeConfig_cons_empty (cfg : RawConfig) (k : String)
    (habs : cfg.lookup k = none) :
    decodeConfig ((k, "") :: cfg) = decodeConfig cfg := by
  simp [decodeConfig, lookup_getD_cons_empty cfg k habs]

/-- Prepending a binding of an absent key to the empty string does not
change repository resolution. -/
theorem ensureRepo_cons_empty (integration : Metadata) (cfg : RawConfig) (k : String)
    (habs : cfg.lookup k = none) :
    ensureRepoInMetadata integration ((k, "") :: cfg) = ensureRepoInMetadata integration cfg := by
  simp [ensureRepoInMetadata, lookup_getD_cons_empty cfg k habs]

/-! ## Claims -/

/-- C1: with a decodable configuration whose issue number parses and a
client that initializes, `Execute` performs exactly one external
CreateComment call; when that call succeeds it emits exactly once, on the
default channel, event type `github.issueComment`, with a one-element
payload sequence; when the call fails, `Execute` returns an error and zero
`Emit` calls occur. -/
theorem execute_single_call_single_emit (ctx : ExecutionContext) (n : Int)
    (hnum : goAtoi (decodeConfig ctx.Configuration).IssueNumber = .ok n)
    (hclient : ctx.NewClientOk = true) :
    (Execute ctx).externalCalls = 1
  ∧ (∀ comment, ctx.CreateCommentOutcome = .ok comment →
      (Execute ctx).emits =
        [⟨DefaultOutputChannel.Name, "github.issueComment", [comment]⟩])
  ∧ (∀ e, ctx.CreateCommentOutcome = .error e →
      (Execute ctx).result = .error ("failed to create issue comment: " ++ e)
      ∧ (Execute ctx).emits = []) := by
  refine ⟨?_, ?_, ?_⟩
  · cases hout : ctx.CreateCommentOutcome with
    | ok comment => rw [execute_ok_eq ctx n comment hnum hclient hout]
    | error e => rw [execute_call_failed_eq ctx n e hnum hclient hout]
  · intro comment hout
    rw [execute_ok_eq ctx n comment hnum hclient hout]
  · intro e hout
    rw [execute_call_failed_eq ctx n e hnum hclient hout]
    exact ⟨rfl, rfl⟩

/-- An execution context with the valid configuration, a working client,
and a successful external call. -/
def validExecCtxOk : ExecutionContext :=
  ⟨validCfg, helloIntegration, true, .ok ⟨777, "Test comment"⟩⟩

/-- C1 witness at a concrete successful execution. -/
theorem execute_single_call_single_emit_witness :
    (Execute validExecCtxOk).externalCalls = 1
  ∧ (Execute validExecCtxOk).emits =
      [⟨DefaultOutputChannel.Name, "github.issueComment", [⟨777, "Test comment"⟩]⟩] :=
  ⟨(execute_single_call_single_emit validExecCtxOk 42 (by decide) rfl).1,
   (execute_single_call_single_emit validExecCtxOk 42 (by decide) rfl).2.1
     ⟨777, "Test comment"⟩ rfl⟩

/-- C2: `Setup` reports exactly the first violated precondition, in the
order repository access check, then issue number, then body: an empty
repository value or an unmatched repository fails with the corresponding
repository error regardless of the other fields, a resolved repository with
an empty issue number fails with "issue number is required" regardless of
the body, and only then an empty body fails with "body is required". -/
theorem setup_reports_first_violation (ctx : SetupContext) :
    ((decodeConfig ctx.Configuration).Repository = "" →
      (Setup ctx).result = .error "repository is required")
  ∧ ((decodeConfig ctx.Configuration).Repository ≠ "" →
      ctx.Integration.Repositories.find?
        (fun r => r.Name == (decodeConfig ctx.Configuration).Repository) = none →
      (Setup ctx).result = .error ("repository " ++ (decodeConfig ctx.Configuration).Repository ++
        " is not accessible to app installation"))
  ∧ (∀ repo, (decodeConfig ctx.Configuration).Repository ≠ "" →
      ctx.Integration.Repositories.find?
        (fun r => r.Name == (decodeConfig ctx.Configuration).Repository) = some repo →
      (decodeConfig ctx.Configuration).IssueNumber = "" →
      (Setup ctx).result = .error "issue number is required")
  ∧ (∀ repo, (decodeConfig ctx.Configuration).Repository ≠ "" →
      ctx.Integration.Repositories.find?
        (fun r => r.Name == (decodeConfig ctx.Configuration).Repository) = some repo →
      (decodeConfig ctx.Configuration).IssueNumber ≠ "" →
      (decodeConfig ctx.Configuration).Body = "" →
      (Setup ctx).result = .error "body is required") := by
  refine ⟨fun h => ?_, fun h1 h2 => ?_, fun repo h1 h2 h3 => ?_, fun repo h1 h2 h3 h4 => ?_⟩
  · rw [setup_repo_missing_eq ctx h]
  · rw [setup_repo_unmatched_eq ctx h1 h2]
  · rw [setup_issue_missing_eq ctx repo h1 h2 h3]
  · rw [setup_body_missing_eq ctx repo h1 h2 h3 h4]

/-- A configuration in which both issue number and body are missing. -/
def bothMissingCtx : SetupContext :=
  ⟨helloIntegration, none, [("repository", "hello"), ("issueNumber", ""), ("body", "")]⟩

/-- C2 witness: with issue number and body both missing, only the first of
them (the issue number) is reported. -/
theorem setup_reports_first_violation_witness :
    (Setup bothMissingCtx).result = .error "issue number is required" :=
  (setup_reports_first_violation bothMissingCtx).2.2.1 helloRepo (by decide) (by decide) rfl

/-- C3: a non-empty repository value that equals no known resource name
makes `Setup` fail with the message
"repository X is not accessible to app installation", which contains the
configured value and the phrase "not accessible to app installation". -/
theorem setup_unknown_repo_not_accessible (ctx : SetupContext) (v : String)
    (hv : (decodeConfig ctx.Configuration).Repository = v)
    (hne : v ≠ "")
    (hnot : ∀ r ∈ ctx.Integration.Repositories, r.Name ≠ v) :
    (Setup ctx).result =
      .error ("repository " ++ v ++ " is not accessible to app installation") := by
  subst hv
  have hfind : ctx.Integration.Repositories.find?
      (fun r => r.Name == (decodeConfig ctx.Configuration).Repository) = none := by
    rw [List.find?_eq_none]
    intro r hr
    simp only [beq_iff_eq]
    exact hnot r hr
  rw [setup_repo_unmatched_eq ctx hne hfind]

/-- A configuration referencing the unknown repository "world". -/
def worldCtx : SetupContext :=
  ⟨helloIntegration, none, [("repository", "world"), ("issueNumber", "42"), ("body", "Test comment")]⟩

/-- C3 witness at the test scenario with only "hello" known. -/
theorem setup_unknown_repo_not_accessible_witness :
    (Setup worldCtx).result = .error "repository world is not accessible to app installation" :=
  setup_unknown_repo_not_accessible worldCtx "world" rfl (by decide) (by decide)

/-- C4: `Setup` is idempotent — after a successful `Setup`, running it again
with the same configuration and Integration Context (and the store the
first call left behind) yields exactly the same result and the same store
state. -/
theorem setup_idempotent (ctx : SetupContext)
    (h : (Setup ctx).result = .ok ()) :
    Setup { ctx with MetadataStore := (Setup ctx).store } = Setup ctx := by
  cases he : ensureRepoInMetadata ctx.Integration ctx.Configuration with
  | error e =>
    exfalso
    have hc : (Setup ctx).result = .error e := by simp [Setup, he]
    rw [hc] at h
    exact Except.noConfusion h
  | ok nm =>
    by_cases hi : (decodeConfig ctx.Configuration).IssueNumber = ""
    · exfalso
      have hc : (Setup ctx).result = .error "issue number is required" := by
        simp [Setup, he, hi]
      rw [hc] at h
      exact Except.noConfusion h
    · by_cases hb : (decodeConfig ctx.Configuration).Body = ""
      · exfalso
        have hc : (Setup ctx).result = .error "body is required" := by
          simp [Setup, he, hi, hb]
        rw [hc] at h
        exact Except.noConfusion h
      · have h1 : Setup ctx = ⟨.ok (), some nm⟩ := by simp [Setup, he, hi, hb]
        have h2 : Setup { ctx with MetadataStore := (Setup ctx).store } = ⟨.ok (), some nm⟩ := by
          simp [Setup, he, hi, hb]
        rw [h1] at h2 ⊢
        exact h2

/-- C4 witness at the valid test configuration. -/
theorem setup_idempotent_witness :
    Setup { validSetupCtx with MetadataStore := (Setup validSetupCtx).store } = Setup validSetupCtx :=
  setup_idempotent validSetupCtx (by decide)

/-- C5: when the configured repository names a known resource and the other
required fields are non-empty, `Setup` succeeds and the node metadata store
afterwards holds exactly the fully resolved resource object (ID, name,
URL), replaced wholesale — whatever the store held before the call. -/
theorem setup_stores_resolved_repository (ctx : SetupContext)
    (hrepo : (decodeConfig ctx.Configuration).Repository ≠ "")
    (hmem : ∃ r ∈ ctx.Integration.Repositories,
      r.Name = (decodeConfig ctx.Configuration).Repository)
    (hissue : (decodeConfig ctx.Configuration).IssueNumber ≠ "")
    (hbody : (decodeConfig ctx.Configuration).Body ≠ "") :
    (Setup ctx).result = .ok ()
  ∧ ∃ repo, ctx.Integration.Repositories.find?
        (fun r => r.Name == (decodeConfig ctx.Configuration).Repository) = some repo
      ∧ repo.Name = (decodeConfig ctx.Configuration).Repository
      ∧ ∀ s : Option NodeMetadata,
          (Setup { ctx with MetadataStore := s }).store = some ⟨repo⟩ := by
  obtain ⟨r, hr, hrn⟩ := hmem
  cases hf : ctx.Integration.Repositories.find?
      (fun x => x.Name == (decodeConfig ctx.Configuration).Repository) with
  | none =>
    exfalso
    have := List.find?_eq_none.mp hf r hr
    simp only [beq_iff_eq] at this
    exact this hrn
  | some repo =>
    have hname : repo.Name = (decodeConfig ctx.Configuration).Repository := by
      have := List.find?_some hf
      simpa using this
    have hc : Setup ctx = ⟨.ok (), some ⟨repo⟩⟩ :=
      setup_valid_eq ctx repo hrepo hf hissue hbody
    refine ⟨by rw [hc], repo, rfl, hname, ?_⟩
    intro s
    rw [setup_valid_eq ⟨ctx.Integration, s, ctx.Configuration⟩ repo hrepo hf hissue hbody]

/-- C5 witness at the valid test configuration. -/
theorem setup_stores_resolved_repository_witness :
    (Setup validSetupCtx).result = .ok ()
  ∧ ∃ repo, validSetupCtx.Integration.Repositories.find?
        (fun r => r.Name == (decodeConfig validSetupCtx.Configuration).Repository) = some repo
      ∧ repo.Name = (decodeConfig validSetupCtx.Configuration).Repository
      ∧ ∀ s : Option NodeMetadata,
          (Setup { validSetupCtx with MetadataStore := s }).store = some ⟨repo⟩ :=
  setup_stores_resolved_repository validSetupCtx (by decide)
    ⟨helloRepo, by decide, by decide⟩ (by decide) (by decide)

/-- A second known repository that shares the name "hello". -/
def helloRepoDup : Repository := ⟨654321, "hello", "https://github.com/testhq/hello-dup"⟩

/-- An Integration Context exposing two resources both named "hello",
together with the otherwise-valid configuration. -/
def ambiguousCtx : SetupContext :=
  ⟨⟨"testhq", 1, 2, [helloRepo, helloRepoDup]⟩, none, validCfg⟩

/-- C6 counterexample: with two known resources both named "hello", `Setup`
does not fail — it succeeds and silently stores the first match. -/
theorem setup_ambiguous_repo_counterexample :
    2 ≤ (ambiguousCtx.Integration.Repositories.filter
        (fun r => r.Name == (decodeConfig ambiguousCtx.Configuration).Repository)).length
  ∧ (Setup ambiguousCtx).result = .ok ()
  ∧ (Setup ambiguousCtx).store = some ⟨helloRepo⟩ := by
  decide

/-- C6 amended: when more than one known resource carries the configured
repository name (and the other required fields are non-empty), `Setup` does
not fail: it succeeds and silently stores the first matching resource. -/
theorem setup_ambiguous_repo_first_match (ctx : SetupContext) (repo : Repository)
    (hrepo : (decodeConfig ctx.Configuration).Repository ≠ "")
    (hfind : ctx.Integration.Repositories.find?
        (fun r => r.Name == (decodeConfig ctx.Configuration).Repository) = some repo)
    (hdup : 2 ≤ (ctx.Integration.Repositories.filter
        (fun r => r.Name == (decodeConfig ctx.Configuration).Repository)).length)
    (hissue : (decodeConfig ctx.Configuration).IssueNumber ≠ "")
    (hbody : (decodeConfig ctx.Configuration).Body ≠ "") :
    (Setup ctx).result = .ok () ∧ (Setup ctx).store = some ⟨repo⟩ := by
  rw [setup_valid_eq ctx repo hrepo hfind hissue hbody]
  exact ⟨rfl, rfl⟩

/-- C6 amended witness at the two-"hello" context. -/
theorem setup_ambiguous_repo_first_match_witness :
    (Setup ambiguousCtx).result = .ok () ∧ (Setup ambiguousCtx).store = some ⟨helloRepo⟩ :=
  setup_ambiguous_repo_first_match ambiguousCtx helloRepo (by decide) (by decide)
    (by decide) (by decide) (by decide)

/-- C7: for a required key, a raw configuration in which the key is absent
and the same configuration with the key bound to the empty string give
identical `Setup` results (the same error and the same store state). -/
theorem setup_absent_key_eq_empty (ctx : SetupContext) (k : String)
    (hk : k = "repository" ∨ k = "issueNumber" ∨ k = "body")
    (habs : ctx.Configuration.lookup k = none) :
    Setup { ctx with Configuration := (k, "") :: ctx.Configuration } = Setup ctx := by
  show Setup ⟨ctx.Integration, ctx.MetadataStore, (k, "") :: ctx.Configuration⟩ = Setup ctx
  simp only [Setup, ensureRepo_cons_empty ctx.Integration ctx.Configuration k habs,
    decodeConfig_cons_empty ctx.Configuration k habs]

/-- A configuration in which the "issueNumber" key is entirely absent. -/
def missingIssueKeyCtx : SetupContext :=
  ⟨helloIntegration, none, [("repository", "hello"), ("body", "x")]⟩

/-- C7 witness: adding an explicit empty "issueNumber" binding changes
nothing. -/
theorem setup_absent_key_eq_empty_witness :
    Setup { missingIssueKeyCtx with
      Configuration := ("issueNumber", "") :: missingIssueKeyCtx.Configuration } =
      Setup missingIssueKeyCtx :=
  setup_absent_key_eq_empty missingIssueKeyCtx "issueNumber" (Or.inr (Or.inl rfl)) (by decide)

/-- C8: the declared configuration schema has exactly three fields, in
order repository, issueNumber, body, with labels "Repository",
"Issue Number", "Body", all marked required. -/
theorem configuration_declares_schema :
    Configuration.length = 3
  ∧ Configuration.map (fun f => (f.Name, f.Label, f.Required)) =
      [("repository", "Repository", true),
       ("issueNumber", "Issue Number", true),
       ("body", "Body", true)] := by
  decide

/-- C9: for every configuration value of any type, `OutputChannels` returns
the one-element default channel list; being a constant function of its
argument it is identical across calls with the same configuration. -/
theorem outputChannels_single_default {α : Type} (configuration : α) :
    OutputChannels configuration = [DefaultOutputChannel]
  ∧ (OutputChannels configuration).length = 1 :=
  ⟨rfl, rfl⟩

/-- C10: a configuration whose issue number is non-empty but not a valid
decimal integer passes `Setup` (which only checks non-emptiness), yet
`Execute` rejects it with "issue number is not a valid number", making zero
external calls and zero `Emit` calls. -/
theorem setup_accepts_nonnumeric_issue_execute_rejects
    (integration : Metadata) (store : Option NodeMetadata) (cfg : RawConfig)
    (appMeta : Metadata) (clientOk : Bool) (outcome : Except String GitHubComment)
    (repo : Repository)
    (hrepo : (decodeConfig cfg).Repository ≠ "")
    (hfind : integration.Repositories.find?
        (fun r => r.Name == (decodeConfig cfg).Repository) = some repo)
    (hissue : (decodeConfig cfg).IssueNumber ≠ "")
    (hbody : (decodeConfig cfg).Body ≠ "")
    (hinv : parseGoIntSyntax (decodeConfig cfg).IssueNumber = none) :
    (Setup ⟨integration, store, cfg⟩).result = .ok ()
  ∧ (Execute ⟨cfg, appMeta, clientOk, outcome⟩).result =
      .error ("issue number is not a valid number: " ++
        ("strconv.Atoi: parsing \"" ++ (decodeConfig cfg).IssueNumber ++ "\": invalid syntax"))
  ∧ (Execute ⟨cfg, appMeta, clientOk, outcome⟩).externalCalls = 0
  ∧ (Execute ⟨cfg, appMeta, clientOk, outcome⟩).emits = [] := by
  have hs : Setup ⟨integration, store, cfg⟩ = ⟨.ok (), some ⟨repo⟩⟩ :=
    setup_valid_eq ⟨integration, store, cfg⟩ repo hrepo hfind hissue hbody
  have ha : goAtoi (decodeConfig cfg).IssueNumber =
      .error ("strconv.Atoi: parsing \"" ++ (decodeConfig cfg).IssueNumber ++ "\": invalid syntax") :=
    goAtoi_syntax_error _ hinv
  have he : Execute ⟨cfg, appMeta, clientOk, outcome⟩ =
      ⟨.error ("issue number is not a valid number: " ++
        ("strconv.Atoi: parsing \"" ++ (decodeConfig cfg).IssueNumber ++ "\": invalid syntax")), 0, []⟩ :=
    execute_badnum_eq ⟨cfg, appMeta, clientOk, outcome⟩ _ ha
  rw [hs, he]
  exact ⟨rfl, rfl, rfl, rfl⟩

/-- A configuration with the non-numeric issue number "abc". -/
def nonNumericCfg : RawConfig :=
  [("repository", "hello"), ("issueNumber", "abc"), ("body", "x")]

/-- C10 witness at the issue number "abc". -/
theorem setup_accepts_nonnumeric_issue_execute_rejects_witness :
    (Setup ⟨helloIntegration, none, nonNumericCfg⟩).result = .ok ()
  ∧ (Execute ⟨nonNumericCfg, helloIntegration, true, .ok ⟨1, "x"⟩⟩).result =
      .error ("issue number is not a valid number: " ++
        ("strconv.Atoi: parsing \"" ++ (decodeConfig nonNumericCfg).IssueNumber ++ "\": invalid syntax"))
  ∧ (Execute ⟨nonNumericCfg, helloIntegration, true, .ok ⟨1, "x"⟩⟩).externalCalls = 0
  ∧ (Execute ⟨nonNumericCfg, helloIntegration, true, .ok ⟨1, "x"⟩⟩).emits = [] :=
  setup_accepts_nonnumeric_issue_execute_rejects helloIntegration none nonNumericCfg
    helloIntegration true (.ok ⟨1, "x"⟩) helloRepo
    (by decide) (by decide) (by decide) (by decide) (by decide)

end Superplane
